import Mathlib

/-!
Shallow embedding of `src/app.py` (a single Streamlit script that maps a map
click to a reverse-geocoded country and that country holidays for the
current year).

A Streamlit script runs top to bottom on every render pass.  One pass is
modelled as a pure function `renderPass` from the configuration, the current
session state, and the external inputs of the pass (the click reported by the
map widget and the two HTTP responses, treated as oracles) to the next
session state, the ordered list of rendered/emitted effects, and whether
`st.rerun` was raised.  `st.rerun` and `st.stop` raise control exceptions
derived from `BaseException`, so they are not caught by the
`except Exception` handlers of the script; they abort the rest of the pass.

Latitudes and longitudes are carried through verbatim (no arithmetic is ever
performed on them), so they are modelled as rationals.
-/

/-- A latitude/longitude pair as reported by the map widget. -/
structure Coord where
  lat : Rat
  lon : Rat
deriving DecidableEq

/-- The `address` object of a Nominatim reverse-geocoding response:
`country_code` and `country` are each present or absent. -/
structure GeoAddress where
  country_code : Option String
  country : Option String
deriving DecidableEq

/-- A parsed Nominatim reverse-geocoding response body; the `address` key is
present or absent. -/
structure GeoData where
  address : Option GeoAddress
deriving DecidableEq

/-- How the geocode HTTP call can fail: `request` covers
`requests.exceptions.RequestException` (transport failure or
`raise_for_status` on a non-success status), `other` covers the generic
`except Exception` branch (e.g. a JSON decode failure). -/
inductive GeoErr where
  | request (msg : String)
  | other (msg : String)
deriving DecidableEq

/-- One holiday record as consumed by the DataFrame rendering:
`date.iso`, `name`, `description`. -/
structure Holiday where
  date_iso : String
  name : String
  description : String
deriving DecidableEq

/-- The `response` object of a Calendarific reply; the `holidays` key is
present or absent. -/
structure HolidayResponse where
  holidays : Option (List Holiday)
deriving DecidableEq

/-- A parsed Calendarific reply body; the `response` key is present or
absent. -/
structure HolidayData where
  response : Option HolidayResponse
deriving DecidableEq

/-- How the holiday HTTP call can fail.  `request` carries the exception
message and, as an oracle, the server-side error message that the nested
`response.json()` retry in the handler manages to extract (absent when that
nested parse fails or finds no `response.error` field). -/
inductive HolErr where
  | request (msg : String) (serverError : Option String)
  | other (msg : String)
deriving DecidableEq

/-- The per-session mutable state (`st.session_state`).  `none` models a key
that is absent as well as one explicitly set to Python `None`; the script
only ever distinguishes them through `.get`, which treats both alike. -/
structure SessionState where
  center : Coord
  zoom : Nat
  clicked_location : Option Coord
  country_code : Option String
  country_name : Option String
deriving DecidableEq

/-- The defaults installed by the session-state initialisation block:
center Seoul, zoom 4, nothing clicked; the country keys are not created. -/
def initialState : SessionState :=
  { center := { lat := 37.5665, lon := 126.9780 }
    zoom := 4
    clicked_location := none
    country_code := none
    country_name := none }

/-- The query parameters and the identifying header of one Nominatim
reverse-geocoding request. -/
structure GeoRequest where
  lat : Rat
  lon : Rat
  format : String
  acceptLanguage : String
  userAgent : String
deriving DecidableEq

/-- The query parameters of one Calendarific holidays request. -/
structure HolidayRequest where
  api_key : String
  country : String
  year : Nat
deriving DecidableEq

/-- Everything one render pass emits, in script order: UI elements, outbound
HTTP requests, and status messages. -/
inductive Effect where
  | titleText (s : String)
  | markdownText (s : String)
  | renderMap (center : Coord) (zoom : Nat) (marker : Option Coord)
  | geocodeRequest (r : GeoRequest)
  | holidayRequest (r : HolidayRequest)
  | subheaderText (s : String)
  | dataframeTable (rows : List (String × String × String))
  | warningMsg (s : String)
  | errorMsg (s : String)
  | infoMsg (s : String)
  | jsonDump (d : HolidayData)
  | stop
deriving DecidableEq

/-- Startup configuration: `st.secrets` either holds the Calendarific API
key, or its absence (a `KeyError`/`FileNotFoundError`) is modelled by
`none`. -/
structure Config where
  apiKey : Option String
deriving DecidableEq

instance : DecidableEq (Except GeoErr GeoData) := fun a b =>
  match a, b with
  | Except.ok x, Except.ok y =>
      if h : x = y then isTrue (by rw [h]) else isFalse (by simp [h])
  | Except.error x, Except.error y =>
      if h : x = y then isTrue (by rw [h]) else isFalse (by simp [h])
  | Except.ok _, Except.error _ => isFalse (by simp)
  | Except.error _, Except.ok _ => isFalse (by simp)

instance : DecidableEq (Except HolErr HolidayData) := fun a b =>
  match a, b with
  | Except.ok x, Except.ok y =>
      if h : x = y then isTrue (by rw [h]) else isFalse (by simp [h])
  | Except.error x, Except.error y =>
      if h : x = y then isTrue (by rw [h]) else isFalse (by simp [h])
  | Except.ok _, Except.error _ => isFalse (by simp)
  | Except.error _, Except.ok _ => isFalse (by simp)

/-- The external inputs of one render pass: the click the map widget reports
(`map_data["last_clicked"]`, `none` when absent), the outcome of the geocode
call were it made, the outcome of the holiday call were it made, and
`datetime.now().year`. -/
structure PassInput where
  click : Option Coord
  geoResp : Except GeoErr GeoData
  holResp : Except HolErr HolidayData
  year : Nat
deriving DecidableEq

/-- Result of one render pass: the session state it leaves behind, the
effects it emitted in order, and whether it ended in `st.rerun()`. -/
structure PassOutput where
  state : SessionState
  effects : List Effect
  rerun : Bool
deriving DecidableEq

/-- The Python `str.upper()` on the (ASCII) data the script feeds it:
uppercase every character.  Defined on the character list directly so that
it computes by structural recursion. -/
def pyUpper (s : String) : String := { data := s.data.map Char.toUpper }

def userAgentHeader : String := "Streamlit Holiday App (user@example.com)"

def keyErrMsg1 : String :=
  "Streamlit Secrets에 CALENDARIFIC_API_KEY가 설정되지 않았습니다."

def keyErrMsg2 : String :=
  "Streamlit Cloud의 Settings > Secrets에 API 키를 추가해주세요."

def noCountryWarning : String :=
  "선택한 위치의 국가 정보를 찾을 수 없습니다. 다른 위치를 클릭해 주세요."

def promptMsg : String :=
  "지도를 클릭하여 공휴일을 확인할 국가를 선택해 주세요."

def malformedMsg : String := "API 응답 형식이 올바르지 않습니다."

/-- The click-handler block (lines 64-113 of `app.py`): store the click,
recenter, zoom to 6, issue the geocode request, and either store the
(upper-cased) country and raise `st.rerun`, or clear the country keys with a
warning/error.  Returns the updated state, the effects of the block, and the
rerun flag. -/
def clickPhase (s : SessionState) (c : Coord) (geoResp : Except GeoErr GeoData) :
    SessionState × List Effect × Bool :=
  let s1 : SessionState := { s with clicked_location := some c, center := c, zoom := 6 }
  let req : GeoRequest :=
    { lat := c.lat, lon := c.lon, format := "json", acceptLanguage := "en",
      userAgent := userAgentHeader }
  match geoResp with
  | Except.ok gd =>
      match gd.address with
      | some addr =>
          match addr.country_code with
          | some rawCode =>
              let code := pyUpper rawCode
              let name := addr.country.getD code
              ({ s1 with country_code := some code, country_name := some name },
               [Effect.geocodeRequest req], true)
          | none =>
              ({ s1 with country_code := none, country_name := none },
               [Effect.geocodeRequest req, Effect.warningMsg noCountryWarning], false)
      | none =>
          ({ s1 with country_code := none, country_name := none },
           [Effect.geocodeRequest req, Effect.warningMsg noCountryWarning], false)
  | Except.error (GeoErr.request msg) =>
      ({ s1 with country_code := none, country_name := none },
       [Effect.geocodeRequest req,
        Effect.errorMsg ("국가 정보 조회 중 오류가 발생했습니다: " ++ msg)], false)
  | Except.error (GeoErr.other msg) =>
      ({ s1 with country_code := none, country_name := none },
       [Effect.geocodeRequest req,
        Effect.errorMsg ("알 수 없는 오류 발생 (국가 조회): " ++ msg)], false)

/-- The holiday-display block (lines 116-174 of `app.py`).  The guard is
Python truthiness of `st.session_state.get("country_code")`: absent, `None`
and the empty string all fall through to the prompt.  The direct attribute
access `st.session_state.country_name` is modelled with `getD ""`; in every
reachable state the name is set whenever the code is. -/
def holidayPhase (apiKey : String) (s : SessionState)
    (holResp : Except HolErr HolidayData) (year : Nat) : List Effect :=
  match s.country_code with
  | none => [Effect.infoMsg promptMsg]
  | some cc =>
      if cc.isEmpty then [Effect.infoMsg promptMsg]
      else
        let nameStr := s.country_name.getD ""
        Effect.subheaderText
            ("📅 " ++ nameStr ++ " (" ++ cc ++ ")의 " ++ toString year ++ "년 공휴일") ::
        Effect.holidayRequest { api_key := apiKey, country := cc, year := year } ::
        (match holResp with
         | Except.ok hd =>
             match hd.response with
             | some resp =>
                 match resp.holidays with
                 | some hs =>
                     if hs.isEmpty then
                       [Effect.infoMsg (nameStr ++ " 국가의 공휴일 정보를 찾을 수 없습니다.")]
                     else
                       [Effect.dataframeTable
                          (hs.map (fun h => (h.date_iso, h.name, h.description)))]
                 | none => [Effect.errorMsg malformedMsg, Effect.jsonDump hd]
             | none => [Effect.errorMsg malformedMsg, Effect.jsonDump hd]
         | Except.error (HolErr.request msg serverErr) =>
             Effect.errorMsg ("Calendarific API 호출 중 오류가 발생했습니다: " ++ msg) ::
             (match serverErr with
              | some se => [Effect.errorMsg ("API 서버 메시지: " ++ se)]
              | none => [])
         | Except.error (HolErr.other msg) =>
             [Effect.errorMsg ("알 수 없는 오류 발생 (공휴일 조회): " ++ msg)])

/-- One full top-to-bottom run of the script.  Missing API key: two error
messages and `st.stop`, nothing else.  Otherwise: page chrome and the map
(drawn from the pre-click state), then the click handler if a click is
reported, then — unless the handler ended in `st.rerun` — the holiday
block. -/
def renderPass (cfg : Config) (s : SessionState) (i : PassInput) : PassOutput :=
  match cfg.apiKey with
  | none =>
      { state := s
        effects := [Effect.errorMsg keyErrMsg1, Effect.errorMsg keyErrMsg2, Effect.stop]
        rerun := false }
  | some apiKey =>
      let ui : List Effect :=
        [Effect.titleText "🗺️ 세계 공휴일 캘린더 (지도 클릭)",
         Effect.markdownText
           "지도에서 원하는 국가의 위치를 클릭하면 해당 국가의 올해 공휴일 정보를 보여줍니다.",
         Effect.renderMap s.center s.zoom s.clicked_location]
      match i.click with
      | none =>
          { state := s
            effects := ui ++ holidayPhase apiKey s i.holResp i.year
            rerun := false }
      | some c =>
          match clickPhase s c i.geoResp with
          | (s1, clickEffs, true) =>
              { state := s1, effects := ui ++ clickEffs, rerun := true }
          | (s1, clickEffs, false) =>
              { state := s1
                effects := ui ++ clickEffs ++ holidayPhase apiKey s1 i.holResp i.year
                rerun := false }

/-- Iterate render passes from a state, feeding each resulting state into the
next pass (the trace is chronological, head first). -/
def runTrace (cfg : Config) (s : SessionState) : List PassInput → SessionState
  | [] => s
  | i :: rest => runTrace cfg (renderPass cfg s i).state rest

/-- Did a geocode response succeed with a `country_code` field present in
its address (the condition of the success branch)? -/
def geoSucceeded : Except GeoErr GeoData → Bool
  | Except.ok gd =>
      match gd.address with
      | some addr => addr.country_code.isSome
      | none => false
  | Except.error _ => false

/-- The outcome of the most recent geocode call in a trace: `none` when no
pass carried a click (so no geocode call was ever made). -/
def lastGeoFlag : List PassInput → Option Bool
  | [] => none
  | i :: rest =>
      match lastGeoFlag rest with
      | some b => some b
      | none =>
          match i.click with
          | some _ => some (geoSucceeded i.geoResp)
          | none => none

/-- Python truthiness of an optional string: `None`, an absent key and the
empty string are all falsy. -/
def truthyStr : Option String → Bool
  | some s => !s.isEmpty
  | none => false

def isGeocodeReq : Effect → Bool
  | Effect.geocodeRequest _ => true
  | _ => false

def isHolidayReq : Effect → Bool
  | Effect.holidayRequest _ => true
  | _ => false

def isMapRender : Effect → Bool
  | Effect.renderMap _ _ _ => true
  | _ => false

def isErrorEff : Effect → Bool
  | Effect.errorMsg _ => true
  | _ => false

def isWarnOrError : Effect → Bool
  | Effect.warningMsg _ => true
  | Effect.errorMsg _ => true
  | _ => false

def isTableEff : Effect → Bool
  | Effect.dataframeTable _ => true
  | _ => false

def hasGeocodeRequest (effs : List Effect) : Bool := effs.any isGeocodeReq

def hasHolidayRequest (effs : List Effect) : Bool := effs.any isHolidayReq

def hasMapRender (effs : List Effect) : Bool := effs.any isMapRender

def hasErrorMsg (effs : List Effect) : Bool := effs.any isErrorEff

def hasWarnOrError (effs : List Effect) : Bool := effs.any isWarnOrError

def hasTable (effs : List Effect) : Bool := effs.any isTableEff

/-- A configuration with the API key present, for concrete instantiations. -/
def cfgEx : Config := { apiKey := some "demo-key" }

/-- A configuration with the API key absent. -/
def cfgNoKey : Config := { apiKey := none }

/-- A pass input: click on Seoul, geocode succeeds with code and name. -/
def inpClickOk : PassInput :=
  { click := some { lat := 37.5665, lon := 126.9780 }
    geoResp := Except.ok
      { address := some { country_code := some "kr", country := some "South Korea" } }
    holResp := Except.error (HolErr.other "unused")
    year := 2025 }

/-- A pass input: click mid-ocean, the geocode response has no address. -/
def inpClickNoMatch : PassInput :=
  { click := some { lat := 0, lon := -30 }
    geoResp := Except.ok { address := none }
    holResp := Except.error (HolErr.other "unused")
    year := 2025 }

/-- A pass input: click, geocode succeeds with a code but no country name. -/
def inpClickNoName : PassInput :=
  { click := some { lat := 37.5665, lon := 126.9780 }
    geoResp := Except.ok { address := some { country_code := some "kr", country := none } }
    holResp := Except.error (HolErr.other "unused")
    year := 2025 }

/-- A pass input: no click, and the holiday call fails with HTTP 401. -/
def inpNoClickErr : PassInput :=
  { click := none
    geoResp := Except.error (GeoErr.other "unused")
    holResp := Except.error (HolErr.request "401 Client Error: Unauthorized" none)
    year := 2025 }

/-- A pass input: no click, and the holiday call returns an empty list. -/
def inpNoClickEmpty : PassInput :=
  { click := none
    geoResp := Except.error (GeoErr.other "unused")
    holResp := Except.ok { response := some { holidays := some [] } }
    year := 2025 }

/-- A session state in which Korea is already resolved. -/
def stateKR : SessionState :=
  { center := { lat := 37.5665, lon := 126.9780 }
    zoom := 6
    clicked_location := some { lat := 37.5665, lon := 126.9780 }
    country_code := some "KR"
    country_name := some "South Korea" }

/-- The geocode request the click in `inpClickOk` produces. -/
def reqEx : GeoRequest :=
  { lat := 37.5665, lon := 126.9780, format := "json", acceptLanguage := "en",
    userAgent := userAgentHeader }

/- ------------------------------------------------------------------ -/
/- Helper lemmas                                                       -/
/- ------------------------------------------------------------------ -/

theorem char_toNat_ofNat (n : Nat) (h : n.isValidChar) : (Char.ofNat n).toNat = n := by
  rw [Char.ofNat, dif_pos h]
  rfl

theorem char_toUpper_idem (c : Char) : c.toUpper.toUpper = c.toUpper := by
  show Char.toUpper (Char.toUpper c) = Char.toUpper c
  unfold Char.toUpper
  by_cases h : c.toNat ≥ 97 ∧ c.toNat ≤ 122
  · rw [if_pos h]
    have hv : (c.toNat - 32).isValidChar := Or.inl (by omega)
    rw [char_toNat_ofNat _ hv]
    rw [if_neg (by omega)]
  · rw [if_neg h, if_neg h]

theorem pyUpper_idem (s : String) : pyUpper (pyUpper s) = pyUpper s := by
  unfold pyUpper
  simp only [List.map_map]
  congr 1
  exact List.map_congr_left fun c _ => char_toUpper_idem c

theorem renderPass_state_of_no_click (cfg : Config) (k : String) (s : SessionState)
    (i : PassInput) (h : cfg.apiKey = some k) (hc : i.click = none) :
    (renderPass cfg s i).state = s := by
  simp [renderPass, h, hc]

theorem renderPass_country_of_click (cfg : Config) (k : String) (s : SessionState)
    (i : PassInput) (c : Coord) (h : cfg.apiKey = some k) (hc : i.click = some c) :
    (renderPass cfg s i).state.country_code.isSome = geoSucceeded i.geoResp := by
  obtain ⟨click, geoResp, holResp, year⟩ := i
  simp only at hc
  subst hc
  rcases geoResp with e | gd
  · cases e <;> simp [renderPass, clickPhase, h, geoSucceeded]
  · rcases gd with ⟨_ | ⟨cc?, cn?⟩⟩
    · simp [renderPass, clickPhase, h, geoSucceeded]
    · rcases cc? with _ | cc <;> simp [renderPass, clickPhase, h, geoSucceeded]

theorem runTrace_country (cfg : Config) (k : String) (h : cfg.apiKey = some k) :
    ∀ (trace : List PassInput) (s : SessionState),
      (runTrace cfg s trace).country_code.isSome =
        (lastGeoFlag trace).getD s.country_code.isSome := by
  intro trace
  induction trace with
  | nil => intro s; simp [runTrace, lastGeoFlag]
  | cons i rest ih =>
      intro s
      show (runTrace cfg (renderPass cfg s i).state rest).country_code.isSome = _
      rw [ih]
      rcases hf : lastGeoFlag rest with _ | b
      · rcases hc : i.click with _ | c
        · rw [renderPass_state_of_no_click cfg k s i h hc]
          simp [lastGeoFlag, hf, hc]
        · rw [renderPass_country_of_click cfg k s i c h hc]
          simp [lastGeoFlag, hf, hc]
      · simp [lastGeoFlag, hf]

theorem renderPass_upper_preserved (cfg : Config) (s : SessionState) (i : PassInput)
    (hs : ∀ cc, s.country_code = some cc → pyUpper cc = cc) :
    ∀ cc, (renderPass cfg s i).state.country_code = some cc → pyUpper cc = cc := by
  intro cc hcc
  rcases hk : cfg.apiKey with _ | k
  · simp [renderPass, hk] at hcc
    exact hs cc hcc
  · rcases hc : i.click with _ | c
    · rw [renderPass_state_of_no_click cfg k s i hk hc] at hcc
      exact hs cc hcc
    · obtain ⟨click, geoResp, holResp, year⟩ := i
      simp only at hc
      subst hc
      rcases geoResp with e | gd
      · cases e <;> simp [renderPass, clickPhase, hk] at hcc
      · rcases gd with ⟨_ | ⟨cc?, cn?⟩⟩
        · simp [renderPass, clickPhase, hk] at hcc
        · rcases cc? with _ | raw
          · simp [renderPass, clickPhase, hk] at hcc
          · simp [renderPass, clickPhase, hk] at hcc
            rw [← hcc]
            exact pyUpper_idem raw

theorem runTrace_upper (cfg : Config) :
    ∀ (trace : List PassInput) (s : SessionState),
      (∀ cc, s.country_code = some cc → pyUpper cc = cc) →
      ∀ cc, (runTrace cfg s trace).country_code = some cc → pyUpper cc = cc := by
  intro trace
  induction trace with
  | nil => intro s hs; exact hs
  | cons i rest ih =>
      intro s hs
      exact ih _ (renderPass_upper_preserved cfg s i hs)

theorem anyHoliday_holidayPhase (k : String) (s : SessionState)
    (hr : Except HolErr HolidayData) (y : Nat) :
    (holidayPhase k s hr y).any isHolidayReq = truthyStr s.country_code := by
  rcases hcc : s.country_code with _ | cc
  · simp [holidayPhase, hcc, truthyStr, isHolidayReq]
  · by_cases he : cc.isEmpty
    · simp [holidayPhase, hcc, he, truthyStr, isHolidayReq]
    · simp [holidayPhase, hcc, he, truthyStr, isHolidayReq]

theorem geocodeReq_not_mem_holidayPhase (k : String) (s : SessionState)
    (hr : Except HolErr HolidayData) (y : Nat) (r : GeoRequest) :
    Effect.geocodeRequest r ∉ holidayPhase k s hr y := by
  rcases hcc : s.country_code with _ | cc
  · simp [holidayPhase, hcc]
  · by_cases he : cc.isEmpty
    · simp [holidayPhase, hcc, he]
    · rcases hr with e | hd
      · rcases e with ⟨msg, _ | se⟩ | msg <;> simp [holidayPhase, hcc, he]
      · rcases hd with ⟨_ | ⟨_ | hs⟩⟩
        · simp [holidayPhase, hcc, he]
        · simp [holidayPhase, hcc, he]
        · by_cases hhs : hs.isEmpty <;> simp [holidayPhase, hcc, he, hhs]

/- ------------------------------------------------------------------ -/
/- Claims                                                              -/
/- ------------------------------------------------------------------ -/

/-- C1: after any sequence of completed interaction passes (the API key
being configured), the session-state `country_code` is set (non-`None`) if
and only if the most recent geocode call in the trace succeeded with a
`country_code` field present in the response address; when no geocode call
was ever made it is unset. -/
theorem country_code_set_iff_last_geocode_success (cfg : Config) (k : String)
    (trace : List PassInput) (h : cfg.apiKey = some k) :
    (runTrace cfg initialState trace).country_code.isSome =
      (lastGeoFlag trace).getD false := by
  rw [runTrace_country cfg k h trace initialState]
  rfl

/-- Witness for C1 at a one-pass trace whose geocode call succeeds. -/
theorem country_code_set_iff_last_geocode_success_witness :
    cfgEx.apiKey = some "demo-key" ∧
    (runTrace cfgEx initialState [inpClickOk]).country_code.isSome =
      (lastGeoFlag [inpClickOk]).getD false :=
  ⟨rfl, country_code_set_iff_last_geocode_success cfgEx "demo-key" [inpClickOk] rfl⟩

/-- C2 counterexample: a pass that starts with a country code already set
and clicks a point whose geocode succeeds keeps a country code set
throughout, yet issues no holiday request in that pass — the pass ends in
`st.rerun` before the holiday block is reached. -/
theorem holiday_fetch_skipped_despite_country_set :
    stateKR.country_code.isSome = true ∧
    (renderPass cfgEx stateKR inpClickOk).state.country_code.isSome = true ∧
    (renderPass cfgEx stateKR inpClickOk).rerun = true ∧
    hasHolidayRequest (renderPass cfgEx stateKR inpClickOk).effects = false := by
  decide

/-- C2 (amended): in a pass with the API key configured, the holiday fetch
is attempted exactly when the pass is not cut short by the `st.rerun` of a
successful geocode and the session-state country code is truthy (a
non-empty string); in particular it is never attempted when `country_code`
is unset or `None`, and it re-executes on every rerun-free render pass
while a non-empty country code remains set (no caching). -/
theorem holiday_fetch_iff_truthy_code (cfg : Config) (k : String) (s : SessionState)
    (i : PassInput) (h : cfg.apiKey = some k) :
    hasHolidayRequest (renderPass cfg s i).effects =
      (!(renderPass cfg s i).rerun && truthyStr (renderPass cfg s i).state.country_code) := by
  obtain ⟨click, geoResp, holResp, year⟩ := i
  rcases click with _ | c
  · simp [renderPass, h, hasHolidayRequest, List.any_append, isHolidayReq,
      anyHoliday_holidayPhase]
  · rcases geoResp with e | gd
    · cases e <;>
        simp [renderPass, clickPhase, h, hasHolidayRequest, List.any_append, isHolidayReq,
          anyHoliday_holidayPhase, truthyStr]
    · rcases gd with ⟨_ | ⟨cc?, cn?⟩⟩
      · simp [renderPass, clickPhase, h, hasHolidayRequest, List.any_append, isHolidayReq,
          anyHoliday_holidayPhase, truthyStr]
      · rcases cc? with _ | raw <;>
          simp [renderPass, clickPhase, h, hasHolidayRequest, List.any_append, isHolidayReq,
            anyHoliday_holidayPhase, truthyStr]

/-- Witness for the amended C2 on a pass that reaches the holiday block. -/
theorem holiday_fetch_iff_truthy_code_witness :
    cfgEx.apiKey = some "demo-key" ∧
    hasHolidayRequest (renderPass cfgEx stateKR inpNoClickErr).effects =
      (!(renderPass cfgEx stateKR inpNoClickErr).rerun &&
        truthyStr (renderPass cfgEx stateKR inpNoClickErr).state.country_code) :=
  ⟨rfl, holiday_fetch_iff_truthy_code cfgEx "demo-key" stateKR inpNoClickErr rfl⟩

/-- C3: with the API key absent the pass renders exactly the two
configuration error messages and stops; the session state is untouched and
no map, geocode request or holiday request is ever produced. -/
theorem missing_api_key_halts (cfg : Config) (s : SessionState) (i : PassInput)
    (h : cfg.apiKey = none) :
    renderPass cfg s i =
      { state := s
        effects := [Effect.errorMsg keyErrMsg1, Effect.errorMsg keyErrMsg2, Effect.stop]
        rerun := false } ∧
    hasMapRender (renderPass cfg s i).effects = false ∧
    hasGeocodeRequest (renderPass cfg s i).effects = false ∧
    hasHolidayRequest (renderPass cfg s i).effects = false := by
  refine ⟨by simp [renderPass, h], ?_, ?_, ?_⟩ <;>
    simp [renderPass, h, hasMapRender, hasGeocodeRequest, hasHolidayRequest,
      isMapRender, isGeocodeReq, isHolidayReq]

/-- Witness for C3 with a keyless configuration. -/
theorem missing_api_key_halts_witness :
    cfgNoKey.apiKey = none ∧
    (renderPass cfgNoKey initialState inpClickOk =
      { state := initialState
        effects := [Effect.errorMsg keyErrMsg1, Effect.errorMsg keyErrMsg2, Effect.stop]
        rerun := false } ∧
    hasMapRender (renderPass cfgNoKey initialState inpClickOk).effects = false ∧
    hasGeocodeRequest (renderPass cfgNoKey initialState inpClickOk).effects = false ∧
    hasHolidayRequest (renderPass cfgNoKey initialState inpClickOk).effects = false) :=
  ⟨rfl, missing_api_key_halts cfgNoKey initialState inpClickOk rfl⟩

/-- C4: on a click whose geocode attempt fails (transport/HTTP error) or
returns no country match, the pass clears `country_code` and `country_name`
(to `None`), emits a warning or error message, and does not raise
`st.rerun`. -/
theorem geocode_failure_clears_country (cfg : Config) (k : String) (s : SessionState)
    (i : PassInput) (c : Coord) (h : cfg.apiKey = some k) (hc : i.click = some c)
    (hg : geoSucceeded i.geoResp = false) :
    (renderPass cfg s i).state.country_code = none ∧
    (renderPass cfg s i).state.country_name = none ∧
    hasWarnOrError (renderPass cfg s i).effects = true ∧
    (renderPass cfg s i).rerun = false := by
  obtain ⟨click, geoResp, holResp, year⟩ := i
  simp only at hc hg
  subst hc
  rcases geoResp with e | gd
  · cases e <;>
      simp [renderPass, clickPhase, h, hasWarnOrError, List.any_append, isWarnOrError]
  · rcases gd with ⟨_ | ⟨cc?, cn?⟩⟩
    · simp [renderPass, clickPhase, h, hasWarnOrError, List.any_append, isWarnOrError]
    · rcases cc? with _ | raw
      · simp [renderPass, clickPhase, h, hasWarnOrError, List.any_append, isWarnOrError]
      · simp [geoSucceeded] at hg

/-- Witness for C4: a mid-ocean click from a state with a country stored. -/
theorem geocode_failure_clears_country_witness :
    (cfgEx.apiKey = some "demo-key" ∧ inpClickNoMatch.click = some { lat := 0, lon := -30 } ∧
      geoSucceeded inpClickNoMatch.geoResp = false) ∧
    ((renderPass cfgEx stateKR inpClickNoMatch).state.country_code = none ∧
     (renderPass cfgEx stateKR inpClickNoMatch).state.country_name = none ∧
     hasWarnOrError (renderPass cfgEx stateKR inpClickNoMatch).effects = true ∧
     (renderPass cfgEx stateKR inpClickNoMatch).rerun = false) :=
  ⟨⟨rfl, rfl, rfl⟩,
   geocode_failure_clears_country cfgEx "demo-key" stateKR inpClickNoMatch
     { lat := 0, lon := -30 } rfl rfl rfl⟩

/-- C5: when the pass reaches the holiday block with a country resolved and
the holiday fetch fails (transport error or non-success status), an error
message is rendered, the whole session state — in particular `country_code`
and `country_name` — is left unchanged, and no holiday table is rendered. -/
theorem holiday_failure_keeps_state (cfg : Config) (k : String) (s : SessionState)
    (i : PassInput) (cc : String) (e : HolErr) (h : cfg.apiKey = some k)
    (hc : i.click = none) (hcc : s.country_code = some cc) (hne : cc.isEmpty = false)
    (he : i.holResp = Except.error e) :
    (renderPass cfg s i).state = s ∧
    hasErrorMsg (renderPass cfg s i).effects = true ∧
    hasTable (renderPass cfg s i).effects = false := by
  obtain ⟨click, geoResp, holResp, year⟩ := i
  simp only at hc he
  subst hc
  subst he
  rcases e with ⟨msg, _ | se⟩ | msg <;>
    simp [renderPass, holidayPhase, h, hcc, hne, hasErrorMsg, hasTable,
      List.any_append, isErrorEff, isTableEff]

/-- Witness for C5: HTTP 401 from the holiday service with Korea resolved. -/
theorem holiday_failure_keeps_state_witness :
    (cfgEx.apiKey = some "demo-key" ∧ inpNoClickErr.click = none ∧
      stateKR.country_code = some "KR" ∧ ("KR" : String).isEmpty = false ∧
      inpNoClickErr.holResp =
        Except.error (HolErr.request "401 Client Error: Unauthorized" none)) ∧
    ((renderPass cfgEx stateKR inpNoClickErr).state = stateKR ∧
     hasErrorMsg (renderPass cfgEx stateKR inpNoClickErr).effects = true ∧
     hasTable (renderPass cfgEx stateKR inpNoClickErr).effects = false) :=
  ⟨⟨rfl, rfl, rfl, rfl, rfl⟩,
   holiday_failure_keeps_state cfgEx "demo-key" stateKR inpNoClickErr "KR"
     (HolErr.request "401 Client Error: Unauthorized" none) rfl rfl rfl rfl rfl⟩

/-- C6: when the holiday service responds successfully with a well-formed
but empty holidays list, the pass renders the informational
no-holidays-found message — no error message and no table. -/
theorem empty_holidays_render_info (cfg : Config) (k : String) (s : SessionState)
    (i : PassInput) (cc : String) (h : cfg.apiKey = some k) (hc : i.click = none)
    (hcc : s.country_code = some cc) (hne : cc.isEmpty = false)
    (he : i.holResp = Except.ok { response := some { holidays := some [] } }) :
    Effect.infoMsg (s.country_name.getD "" ++ " 국가의 공휴일 정보를 찾을 수 없습니다.")
        ∈ (renderPass cfg s i).effects ∧
    hasErrorMsg (renderPass cfg s i).effects = false ∧
    hasTable (renderPass cfg s i).effects = false := by
  obtain ⟨click, geoResp, holResp, year⟩ := i
  simp only at hc he
  subst hc
  subst he
  simp [renderPass, holidayPhase, h, hcc, hne, hasErrorMsg, hasTable,
    List.any_append, isErrorEff, isTableEff]

/-- Witness for C6: an empty holidays list for the resolved country. -/
theorem empty_holidays_render_info_witness :
    (cfgEx.apiKey = some "demo-key" ∧ inpNoClickEmpty.click = none ∧
      stateKR.country_code = some "KR" ∧ ("KR" : String).isEmpty = false ∧
      inpNoClickEmpty.holResp = Except.ok { response := some { holidays := some [] } }) ∧
    (Effect.infoMsg (stateKR.country_name.getD "" ++ " 국가의 공휴일 정보를 찾을 수 없습니다.")
        ∈ (renderPass cfgEx stateKR inpNoClickEmpty).effects ∧
     hasErrorMsg (renderPass cfgEx stateKR inpNoClickEmpty).effects = false ∧
     hasTable (renderPass cfgEx stateKR inpNoClickEmpty).effects = false) :=
  ⟨⟨rfl, rfl, rfl, rfl, rfl⟩,
   empty_holidays_render_info cfgEx "demo-key" stateKR inpNoClickEmpty "KR"
     rfl rfl rfl rfl rfl⟩

/-- C7: every click event, from any state, records the clicked coordinate,
recenters the map on it and raises the zoom level to the fixed level 6,
whatever the prior center and zoom were and however the geocode turns
out. -/
theorem click_recenters_and_zooms (cfg : Config) (k : String) (s : SessionState)
    (i : PassInput) (c : Coord) (h : cfg.apiKey = some k) (hc : i.click = some c) :
    (renderPass cfg s i).state.clicked_location = some c ∧
    (renderPass cfg s i).state.center = c ∧
    (renderPass cfg s i).state.zoom = 6 := by
  obtain ⟨click, geoResp, holResp, year⟩ := i
  simp only at hc
  subst hc
  rcases geoResp with e | gd
  · cases e <;> simp [renderPass, clickPhase, h]
  · rcases gd with ⟨_ | ⟨cc?, cn?⟩⟩
    · simp [renderPass, clickPhase, h]
    · rcases cc? with _ | raw <;> simp [renderPass, clickPhase, h]

/-- Witness for C7 at the Seoul click from the default state. -/
theorem click_recenters_and_zooms_witness :
    (cfgEx.apiKey = some "demo-key" ∧
      inpClickOk.click = some { lat := 37.5665, lon := 126.9780 }) ∧
    ((renderPass cfgEx initialState inpClickOk).state.clicked_location =
        some { lat := 37.5665, lon := 126.9780 } ∧
     (renderPass cfgEx initialState inpClickOk).state.center =
        { lat := 37.5665, lon := 126.9780 } ∧
     (renderPass cfgEx initialState inpClickOk).state.zoom = 6) :=
  ⟨⟨rfl, rfl⟩,
   click_recenters_and_zooms cfgEx "demo-key" initialState inpClickOk
     { lat := 37.5665, lon := 126.9780 } rfl rfl⟩

/-- C8: every reverse-geocoding request any pass ever emits carries
`format=json`, `accept-language=en`, and the fixed, non-empty descriptive
User-Agent header, and its `lat`/`lon` parameters are exactly the clicked
coordinate. -/
theorem geocode_request_params (cfg : Config) (s : SessionState) (i : PassInput)
    (r : GeoRequest) (h : Effect.geocodeRequest r ∈ (renderPass cfg s i).effects) :
    r.format = "json" ∧ r.acceptLanguage = "en" ∧ r.userAgent = userAgentHeader ∧
    r.userAgent ≠ "" ∧ ∃ c, i.click = some c ∧ r.lat = c.lat ∧ r.lon = c.lon := by
  obtain ⟨click, geoResp, holResp, year⟩ := i
  rcases hk : cfg.apiKey with _ | k
  · simp [renderPass, hk] at h
  · rcases click with _ | c
    · exfalso
      simp [renderPass, hk] at h
      exact geocodeReq_not_mem_holidayPhase k s holResp year r h
    · have hr : r = GeoRequest.mk c.lat c.lon "json" "en" userAgentHeader := by
        rcases geoResp with e | gd
        · rcases e with msg | msg <;>
            (simp [renderPass, clickPhase, hk] at h;
             rcases h with h | h
             · exact h
             · exact absurd h (geocodeReq_not_mem_holidayPhase k _ holResp year r))
        · rcases gd with ⟨_ | ⟨cc?, cn?⟩⟩
          · simp [renderPass, clickPhase, hk] at h
            rcases h with h | h
            · exact h
            · exact absurd h (geocodeReq_not_mem_holidayPhase k _ holResp year r)
          · rcases cc? with _ | raw
            · simp [renderPass, clickPhase, hk] at h
              rcases h with h | h
              · exact h
              · exact absurd h (geocodeReq_not_mem_holidayPhase k _ holResp year r)
            · simp [renderPass, clickPhase, hk] at h
              exact h
      subst hr
      refine ⟨rfl, rfl, rfl, by simp [userAgentHeader], c, rfl, rfl, rfl⟩

/-- Witness for C8: the request emitted by the Seoul click. -/
theorem geocode_request_params_witness :
    Effect.geocodeRequest reqEx ∈ (renderPass cfgEx initialState inpClickOk).effects ∧
    (reqEx.format = "json" ∧ reqEx.acceptLanguage = "en" ∧
     reqEx.userAgent = userAgentHeader ∧ reqEx.userAgent ≠ "" ∧
     ∃ c, inpClickOk.click = some c ∧ reqEx.lat = c.lat ∧ reqEx.lon = c.lon) :=
  ⟨by simp [renderPass, clickPhase, cfgEx, inpClickOk, initialState, reqEx],
   geocode_request_params cfgEx initialState inpClickOk reqEx
     (by simp [renderPass, clickPhase, cfgEx, inpClickOk, initialState, reqEx])⟩

/-- C9: whenever `country_code` is set in a state reachable from the initial
one, it is an upper-case string — applying the uppercase map again leaves
it unchanged — because the success branch upper-cases the code before
storing it. -/
theorem country_code_always_uppercase (cfg : Config) (trace : List PassInput) (cc : String)
    (h : (runTrace cfg initialState trace).country_code = some cc) :
    pyUpper cc = cc :=
  runTrace_upper cfg trace initialState
    (fun _ hcc => by simp [initialState] at hcc) cc h

/-- Witness for C9: the lowercase "kr" from the service is stored as "KR". -/
theorem country_code_always_uppercase_witness :
    (runTrace cfgEx initialState [inpClickOk]).country_code = some "KR" ∧
    pyUpper "KR" = "KR" :=
  ⟨by decide, country_code_always_uppercase cfgEx [inpClickOk] "KR" (by decide)⟩

/-- C10: when the geocode response has `address.country_code` but no
`address.country`, the stored `country_name` defaults to the upper-cased
country code itself, so a display name is set along with the code. -/
theorem missing_country_name_defaults_to_code (cfg : Config) (k : String) (s : SessionState)
    (i : PassInput) (c : Coord) (gd : GeoData) (addr : GeoAddress) (cc : String)
    (h : cfg.apiKey = some k) (hc : i.click = some c) (hg : i.geoResp = Except.ok gd)
    (ha : gd.address = some addr) (hcc : addr.country_code = some cc)
    (hn : addr.country = none) :
    (renderPass cfg s i).state.country_name = some (pyUpper cc) ∧
    (renderPass cfg s i).state.country_code = some (pyUpper cc) := by
  obtain ⟨click, geoResp, holResp, year⟩ := i
  simp only at hc hg
  subst hc
  subst hg
  obtain ⟨addr?⟩ := gd
  simp only at ha
  subst ha
  obtain ⟨cc?, cn?⟩ := addr
  simp only at hcc hn
  subst hcc
  subst hn
  simp [renderPass, clickPhase, h]

/-- Witness for C10: a response with a code but no country name. -/
theorem missing_country_name_defaults_to_code_witness :
    (cfgEx.apiKey = some "demo-key" ∧
      inpClickNoName.geoResp =
        Except.ok { address := some { country_code := some "kr", country := none } }) ∧
    ((renderPass cfgEx initialState inpClickNoName).state.country_name =
        some (pyUpper "kr") ∧
     (renderPass cfgEx initialState inpClickNoName).state.country_code =
        some (pyUpper "kr")) :=
  ⟨⟨rfl, rfl⟩,
   missing_country_name_defaults_to_code cfgEx "demo-key" initialState inpClickNoName
     { lat := 37.5665, lon := 126.9780 }
     { address := some { country_code := some "kr", country := none } }
     { country_code := some "kr", country := none } "kr" rfl rfl rfl rfl rfl rfl⟩
